import Mathlib

set_option maxRecDepth 8000

/-!
Verification of the client-side job-polling protocol of the MLB fantasy
baseball web app.  The definitions below are a shallow embedding of:

* `lib/api/types.ts` — the response record types;
* `pollForCompletion` in `app/(protected)/player/[id]/page.tsx` and in the
  scout page (both call sites contain the identical loop);
* `waitForJobCompletion` and `researchPlayer` in `lib/api/scouting.ts`.

The network is abstracted as an environment `env : Nat → Except String
JobStatusResponse` giving, for each attempt index, either the parsed
status response or a transport-level error message (the thrown error's
`message`).  JavaScript string truthiness (`a || b` falls through on
`undefined` and on the empty string) is modelled by `jsOrElse`.
-/

/-- `GroundingSource` from `lib/api/types.ts`. -/
structure GroundingSource where
  title : String
  uri : String
deriving DecidableEq

/-- `TokenUsage` from `lib/api/types.ts`. -/
structure TokenUsage where
  prompt_tokens : Nat
  response_tokens : Nat
  total_tokens : Nat
  estimated_cost : String
deriving DecidableEq

/-- The `result` payload of `JobStatusResponse` from `lib/api/types.ts`. -/
structure JobResult where
  status : String
  report_id : String
  player_name : String
  summary : String
  recent_stats : String
  injury_status : String
  fantasy_outlook : String
  detailed_analysis : String
  sources : List GroundingSource
  token_usage : TokenUsage
  created_at : String
  expires_at : String
deriving DecidableEq

/-- `JobStatusResponse` from `lib/api/types.ts`: the status is a string
(`"pending" | "running" | "success" | "failed" | "failure"` in the
declared union), `result` is optional, and the error text may appear under
`error` or `error_message`, both optional. -/
structure JobStatusResponse where
  job_id : Option String := none
  id : Option String := none
  status : String
  result : Option JobResult := none
  error : Option String := none
  error_message : Option String := none
deriving DecidableEq

/-- `ScoutingReport` from `lib/api/types.ts`. -/
structure ScoutingReport where
  id : String
  player_name : String
  player_name_normalized : String
  summary : String
  recent_stats : String
  injury_status : String
  fantasy_outlook : String
  detailed_analysis : String
  sources : List GroundingSource
  token_usage : TokenUsage
  created_at : String
  expires_at : String
deriving DecidableEq

/-- `PlayerSummary` from `lib/api/types.ts` (the candidate entries of an
ambiguous research response). -/
structure PlayerSummary where
  id : String
  full_name : String
  current_team_abbrev : Option String
  primary_position : Option String
deriving DecidableEq

/-- `ResearchResponse` from `lib/api/types.ts`: a union discriminated on
the `status` string.  `complete` covers both `"cached"` and `"generated"`
(`cached = true` for the former); `pending` carries the job id and a
message; `ambiguous` carries the candidate list and a message. -/
inductive ResearchResponse where
  | complete (cached : Bool) (report : ScoutingReport)
  | pending (job_id : String) (message : String)
  | ambiguous (candidates : List PlayerSummary) (message : String)
deriving DecidableEq

/-- JavaScript `v || fallback` on an optional string: `undefined` and the
empty string are falsy and fall through to the fallback. -/
def jsOrElse (v : Option String) (fallback : String) : String :=
  match v with
  | some s => if s = "" then fallback else s
  | none => fallback

/-- The error text reported for a failure-terminal status, from
`pollForCompletion`:
`jobStatus.error_message || jobStatus.error || "Research job failed"`. -/
def failureMessage (js : JobStatusResponse) : String :=
  jsOrElse js.error_message (jsOrElse js.error "Research job failed")

/-- How one status response is classified by a `pollForCompletion` loop
iteration: the source first tests `status === "success" && result`
(truthy, i.e. present), then `status === "failed" || status === "failure"`,
and treats everything else as non-terminal. -/
inductive StepClass where
  | successResult (r : JobResult)
  | failure (msg : String)
  | nonTerminal
deriving DecidableEq

/-- Classification of a `JobStatusResponse` by `pollForCompletion`'s
branch structure. -/
def classifyStatus (js : JobStatusResponse) : StepClass :=
  match js.result with
  | some r =>
    if js.status == "success" then .successResult r
    else if js.status == "failed" || js.status == "failure" then
      .failure (failureMessage js)
    else .nonTerminal
  | none =>
    if js.status == "failed" || js.status == "failure" then
      .failure (failureMessage js)
    else .nonTerminal

/-- The one-to-one field mapping from a success `result` payload to a
`ScoutingReport`, as written inline in both `pollForCompletion` call
sites: `player_name_normalized` is the lowercased `player_name`, every
other field is copied, and `id` is the result's `report_id`. -/
def toScoutingReport (r : JobResult) : ScoutingReport :=
  { id := r.report_id
    player_name := r.player_name
    player_name_normalized := r.player_name.toLower
    summary := r.summary
    recent_stats := r.recent_stats
    injury_status := r.injury_status
    fantasy_outlook := r.fantasy_outlook
    detailed_analysis := r.detailed_analysis
    sources := r.sources
    token_usage := r.token_usage
    created_at := r.created_at
    expires_at := r.expires_at }

/-- `maxAttempts = 60` in `pollForCompletion`. -/
def maxAttempts : Nat := 60

/-- `intervalMs = 2000` in `pollForCompletion`. -/
def intervalMs : Nat := 2000

/-- The fixed timeout text set after the loop exhausts all attempts:
`"Research timed out. Please try again."`. -/
def timeoutMessage : String := "Research timed out. Please try again."

/-- The progress text emitted on a non-terminal attempt:
`Researching NAME... (Ns)` with `N = Math.floor(attempt * intervalMs / 1000)`. -/
def progressMessage (playerName : String) (attempt : Nat) : String :=
  "Researching " ++ playerName ++ "... (" ++ toString (attempt * intervalMs / 1000) ++ "s)"

/-- What one run of `pollForCompletion` did: the final outcome (a ready
report, or the error text shown — job failure, transport failure and
timeout all surface through the same `setError`/`setReportStatus("error")`
path), how many `getJobStatus` queries were issued, the progress messages
emitted in order, and the waits performed (in ms) between attempts. -/
inductive PollOutcome where
  | reportReady (r : ScoutingReport)
  | errorOut (msg : String)
deriving DecidableEq

structure PollResult where
  outcome : PollOutcome
  queries : Nat
  progress : List String
  delays : List Nat
deriving DecidableEq

/-- The body of `pollForCompletion`'s `for` loop, fuelled by the number of
remaining attempts.  Each iteration issues one status query; a transport
error is caught and surfaced immediately; a success-with-result builds the
report; a failed/failure status throws the precedence-chosen message into
the same catch; any other status emits progress and waits `intervalMs`
before the next attempt.  Exhausting the fuel is the timeout path. -/
def pollFrom (env : Nat → Except String JobStatusResponse) (playerName : String)
    (attempt fuel : Nat) : PollResult :=
  match fuel with
  | 0 => { outcome := .errorOut timeoutMessage, queries := 0, progress := [], delays := [] }
  | fuel' + 1 =>
    match env attempt with
    | .error msg => { outcome := .errorOut msg, queries := 1, progress := [], delays := [] }
    | .ok js =>
      match classifyStatus js with
      | .successResult r =>
        { outcome := .reportReady (toScoutingReport r), queries := 1
          progress := [], delays := [] }
      | .failure msg =>
        { outcome := .errorOut msg, queries := 1, progress := [], delays := [] }
      | .nonTerminal =>
        let rest := pollFrom env playerName (attempt + 1) fuel'
        { outcome := rest.outcome
          queries := rest.queries + 1
          progress := progressMessage playerName attempt :: rest.progress
          delays := intervalMs :: rest.delays }

/-- `pollForCompletion(jobId, playerName)` from the player page and the
scout page (the two call sites contain the identical loop): 60 attempts
starting at index 0.  The job id is folded into `env`. -/
def pollForCompletion (env : Nat → Except String JobStatusResponse)
    (playerName : String) : PollResult :=
  pollFrom env playerName 0 maxAttempts

instance {ε α : Type} [DecidableEq ε] [DecidableEq α] : DecidableEq (Except ε α) :=
  fun x y =>
    match x, y with
    | .ok a, .ok b =>
      if h : a = b then .isTrue (h ▸ rfl) else .isFalse (fun hc => h (Except.ok.inj hc))
    | .error a, .error b =>
      if h : a = b then .isTrue (h ▸ rfl) else .isFalse (fun hc => h (Except.error.inj hc))
    | .ok _, .error _ => .isFalse (fun hc => Except.noConfusion hc)
    | .error _, .ok _ => .isFalse (fun hc => Except.noConfusion hc)

/-- Result of `waitForJobCompletion` from `lib/api/scouting.ts`: either
the returned status response or the message of the uncaught throw, plus
the number of `getJobStatus` queries issued. -/
structure WaitResult where
  result : Except String JobStatusResponse
  queries : Nat
deriving DecidableEq

/-- The loop of `waitForJobCompletion`: it returns the status when
`status.status === "success" || status.status === "failed"` (note: the
spelling `"failure"` is NOT tested here), lets transport errors propagate,
and throws `"Job timed out"` after `maxAttempts` non-terminal polls. -/
def waitFrom (env : Nat → Except String JobStatusResponse)
    (attempt fuel : Nat) : WaitResult :=
  match fuel with
  | 0 => { result := .error "Job timed out", queries := 0 }
  | fuel' + 1 =>
    match env attempt with
    | .error msg => { result := .error msg, queries := 1 }
    | .ok st =>
      if st.status == "success" || st.status == "failed" then
        { result := .ok st, queries := 1 }
      else
        let rest := waitFrom env (attempt + 1) fuel'
        { result := rest.result, queries := rest.queries + 1 }

/-- `waitForJobCompletion(jobId)` with its default arguments
(`maxAttempts = 60`, `intervalMs = 2000`). -/
def waitForJobCompletion (env : Nat → Except String JobStatusResponse) : WaitResult :=
  waitFrom env 0 60

/-- The parsed JSON body attached to an `ApiError` (`error.data`), in the
shape `researchPlayer` casts it to: an ambiguous research payload with a
`status` discriminator, candidates, and a message. -/
structure AmbiguousData where
  status : String
  candidates : List PlayerSummary
  message : String
deriving DecidableEq

/-- `ApiError` from `lib/api/client.ts`, restricted to the fields
`researchPlayer` inspects: the HTTP status, the derived message, and the
optional parsed response body `data`. -/
structure ApiError where
  status : Nat
  message : String
  data : Option AmbiguousData := none
deriving DecidableEq

/-- `researchPlayer` from `lib/api/scouting.ts`, applied to the outcome of
`apiClient.post`: on an `ApiError` with HTTP status 300 whose `data` is
present and has `status === "ambiguous"`, the payload is returned as a
normal ambiguous `ResearchResponse`; every other error is rethrown
unchanged. -/
def researchPlayer (post : Except ApiError ResearchResponse) :
    Except ApiError ResearchResponse :=
  match post with
  | .ok r => .ok r
  | .error e =>
    match e.data with
    | some d =>
      if e.status == 300 && d.status == "ambiguous" then
        .ok (.ambiguous d.candidates d.message)
      else .error e
    | none => .error e

/-- The candidate list text built in `handleGenerateReport`:
`candidates.map(c => FULLNAME (ABBREV-or-N/A)).join(", ")`. -/
def candidateListText (cands : List PlayerSummary) : String :=
  String.intercalate ", "
    (cands.map (fun c => c.full_name ++ " (" ++ jsOrElse c.current_team_abbrev "N/A" ++ ")"))

/-- The error text `handleGenerateReport` sets on an ambiguous response. -/
def ambiguousErrorText (playerName : String) (cands : List PlayerSummary) : String :=
  "Multiple players found matching \"" ++ playerName ++ "\": " ++
    candidateListText cands ++ ". Please use the Scout page for more control."

/-- What a submission handler did with the research response: showed a
ready report, invoked the poll loop, surfaced the ambiguous-candidates
error, or fell through all branches doing nothing. -/
inductive HandleOutcome where
  | ready (report : ScoutingReport)
  | polled (pr : PollResult)
  | ambiguousError (msg : String)
  | ignored
deriving DecidableEq

/-- Whether the handler surfaced the ambiguous-candidates error. -/
def HandleOutcome.isAmbiguousError : HandleOutcome → Bool
  | .ambiguousError _ => true
  | _ => false

/-- Status queries issued as a consequence of the handler's dispatch. -/
def HandleOutcome.statusQueries : HandleOutcome → Nat
  | .polled pr => pr.queries
  | _ => 0

/-- `handleGenerateReport` from the player page, applied to the research
response: cached/generated shows the report, pending starts the poll
loop, ambiguous sets the candidates error without polling. -/
def handleGenerateReport (env : Nat → Except String JobStatusResponse)
    (playerName : String) (response : ResearchResponse) : HandleOutcome :=
  match response with
  | .complete _ report => .ready report
  | .pending _ _ => .polled (pollForCompletion env playerName)
  | .ambiguous cands _ => .ambiguousError (ambiguousErrorText playerName cands)

/-- `handleSearch` from the scout page, applied to the research response:
cached/generated shows the report, pending starts the poll loop, and an
ambiguous response matches no branch — the function falls through without
setting an error or polling. -/
def handleSearch (env : Nat → Except String JobStatusResponse)
    (playerName : String) (response : ResearchResponse) : HandleOutcome :=
  match response with
  | .complete _ report => .ready report
  | .pending _ _ => .polled (pollForCompletion env playerName)
  | .ambiguous _ _ => .ignored

/-- The environment reports a non-terminal status at attempt `j`. -/
def NonTerminalAt (env : Nat → Except String JobStatusResponse) (j : Nat) : Prop :=
  ∃ js, env j = .ok js ∧ classifyStatus js = .nonTerminal

/-! Concrete sample inputs used as witnesses. -/

def pendingStatus : JobStatusResponse := { status := "pending" }

def runningStatus : JobStatusResponse := { status := "running" }

def sampleTokenUsage : TokenUsage :=
  { prompt_tokens := 120, response_tokens := 480, total_tokens := 600
    estimated_cost := "$0.0123" }

def sampleResult : JobResult :=
  { status := "generated", report_id := "report-123", player_name := "Obscure Prospect"
    summary := "A toolsy middle infielder.", recent_stats := "Hitting .312 in August."
    injury_status := "Healthy.", fantasy_outlook := "Deep-league stash."
    detailed_analysis := "Long writeup."
    sources := [{ title := "mlb.com", uri := "https://mlb.com" }]
    token_usage := sampleTokenUsage
    created_at := "2025-08-20T00:00:00Z", expires_at := "2025-09-03T00:00:00Z" }

def successStatus : JobStatusResponse :=
  { status := "success", result := some sampleResult }

/-- `pending, pending, success(result = sampleResult)` status sequence. -/
def pendingThenSuccess : Nat → Except String JobStatusResponse :=
  fun j => if j < 2 then .ok pendingStatus else .ok successStatus

/-- Non-terminal for 4 attempts, transport error on attempt index 4, a
success that would have been observed on attempt index 5. -/
def transportAt4 : Nat → Except String JobStatusResponse :=
  fun j =>
    if j < 4 then .ok runningStatus
    else if j = 4 then .error "Network error: connection reset"
    else .ok successStatus

def jsBothFields : JobStatusResponse :=
  { status := "failed", error_message := some "X", error := some "Y" }

def jsNoFields : JobStatusResponse := { status := "failure" }

def jsEmptyMsgField : JobStatusResponse :=
  { status := "failed", error_message := some "", error := some "DB down" }

def jsBothEmpty : JobStatusResponse :=
  { status := "failure", error_message := some "", error := some "" }

def successNoResult : JobStatusResponse := { status := "success" }

def failedSpelledStatus : JobStatusResponse :=
  { status := "failed", error_message := some "boom" }

def failureSpelledStatus : JobStatusResponse :=
  { status := "failure", error_message := some "boom" }

def willSmithA : PlayerSummary :=
  { id := "ws1", full_name := "Will Smith", current_team_abbrev := some "LAD"
    primary_position := some "C" }

def willSmithB : PlayerSummary :=
  { id := "ws2", full_name := "Will Smith", current_team_abbrev := some "KC"
    primary_position := some "P" }

def willSmithAmbiguous : ResearchResponse :=
  .ambiguous [willSmithA, willSmithB] "Multiple players match"

def willSmithData : AmbiguousData :=
  { status := "ambiguous", candidates := [willSmithA, willSmithB]
    message := "Multiple players match" }

def ambiguous300 : ApiError :=
  { status := 300, message := "Multiple players found", data := some willSmithData }

def notFound404 : ApiError := { status := 404, message := "Report not found" }

lemma pollFrom_zero (env : Nat → Except String JobStatusResponse)
    (name : String) (attempt : Nat) :
    pollFrom env name attempt 0 =
      { outcome := .errorOut timeoutMessage, queries := 0, progress := [], delays := [] } :=
  rfl

lemma pollFrom_succ_nonTerminal (env : Nat → Except String JobStatusResponse)
    (name : String) (attempt fuel : Nat) (js : JobStatusResponse)
    (henv : env attempt = .ok js) (hcl : classifyStatus js = .nonTerminal) :
    pollFrom env name attempt (fuel + 1) =
      { outcome := (pollFrom env name (attempt + 1) fuel).outcome
        queries := (pollFrom env name (attempt + 1) fuel).queries + 1
        progress := progressMessage name attempt :: (pollFrom env name (attempt + 1) fuel).progress
        delays := intervalMs :: (pollFrom env name (attempt + 1) fuel).delays } := by
  rw [pollFrom, henv]
  simp only [hcl]

lemma pollFrom_succ_success (env : Nat → Except String JobStatusResponse)
    (name : String) (attempt fuel : Nat) (js : JobStatusResponse) (r : JobResult)
    (henv : env attempt = .ok js) (hcl : classifyStatus js = .successResult r) :
    pollFrom env name attempt (fuel + 1) =
      { outcome := .reportReady (toScoutingReport r), queries := 1
        progress := [], delays := [] } := by
  rw [pollFrom, henv]
  simp only [hcl]

lemma pollFrom_succ_failure (env : Nat → Except String JobStatusResponse)
    (name : String) (attempt fuel : Nat) (js : JobStatusResponse) (msg : String)
    (henv : env attempt = .ok js) (hcl : classifyStatus js = .failure msg) :
    pollFrom env name attempt (fuel + 1) =
      { outcome := .errorOut msg, queries := 1, progress := [], delays := [] } := by
  rw [pollFrom, henv]
  simp only [hcl]

lemma pollFrom_succ_transport (env : Nat → Except String JobStatusResponse)
    (name : String) (attempt fuel : Nat) (msg : String)
    (henv : env attempt = .error msg) :
    pollFrom env name attempt (fuel + 1) =
      { outcome := .errorOut msg, queries := 1, progress := [], delays := [] } := by
  rw [pollFrom, henv]

/-- Skipping a run of `k` non-terminal attempts adds `k` status queries. -/
lemma pollFrom_skip_queries (env : Nat → Except String JobStatusResponse) (name : String) :
    ∀ (k attempt fuel : Nat), k ≤ fuel →
      (∀ j, j < k → NonTerminalAt env (attempt + j)) →
      (pollFrom env name attempt fuel).queries =
        (pollFrom env name (attempt + k) (fuel - k)).queries + k := by
  intro k
  induction k with
  | zero => intro attempt fuel _ _; simp
  | succ k ih =>
    intro attempt fuel hk h
    obtain ⟨fuel', rfl⟩ : ∃ f, fuel = f + 1 := ⟨fuel - 1, by omega⟩
    obtain ⟨js, henv, hcl⟩ := h 0 (Nat.succ_pos k)
    rw [Nat.add_zero] at henv
    have h' : ∀ j, j < k → NonTerminalAt env (attempt + 1 + j) := by
      intro j hj
      have := h (j + 1) (by omega)
      rwa [show attempt + (j + 1) = attempt + 1 + j by omega] at this
    rw [pollFrom_succ_nonTerminal env name attempt fuel' js henv hcl]
    show (pollFrom env name (attempt + 1) fuel').queries + 1 = _
    rw [ih (attempt + 1) fuel' (by omega) h',
      show attempt + 1 + k = attempt + (k + 1) by omega,
      show fuel' - k = fuel' + 1 - (k + 1) by omega]
    omega

/-- Skipping a run of `k` non-terminal attempts forwards the outcome. -/
lemma pollFrom_skip_outcome (env : Nat → Except String JobStatusResponse) (name : String) :
    ∀ (k attempt fuel : Nat), k ≤ fuel →
      (∀ j, j < k → NonTerminalAt env (attempt + j)) →
      (pollFrom env name attempt fuel).outcome =
        (pollFrom env name (attempt + k) (fuel - k)).outcome := by
  intro k
  induction k with
  | zero => intro attempt fuel _ _; simp
  | succ k ih =>
    intro attempt fuel hk h
    obtain ⟨fuel', rfl⟩ : ∃ f, fuel = f + 1 := ⟨fuel - 1, by omega⟩
    obtain ⟨js, henv, hcl⟩ := h 0 (Nat.succ_pos k)
    rw [Nat.add_zero] at henv
    have h' : ∀ j, j < k → NonTerminalAt env (attempt + 1 + j) := by
      intro j hj
      have := h (j + 1) (by omega)
      rwa [show attempt + (j + 1) = attempt + 1 + j by omega] at this
    rw [pollFrom_succ_nonTerminal env name attempt fuel' js henv hcl]
    show (pollFrom env name (attempt + 1) fuel').outcome = _
    rw [ih (attempt + 1) fuel' (by omega) h',
      show attempt + 1 + k = attempt + (k + 1) by omega,
      show fuel' - k = fuel' + 1 - (k + 1) by omega]

/-- Skipping a run of `k` non-terminal attempts prepends the `k` progress
messages, in attempt order. -/
lemma pollFrom_skip_progress (env : Nat → Except String JobStatusResponse) (name : String) :
    ∀ (k attempt fuel : Nat), k ≤ fuel →
      (∀ j, j < k → NonTerminalAt env (attempt + j)) →
      (pollFrom env name attempt fuel).progress =
        (List.range k).map (fun j => progressMessage name (attempt + j)) ++
          (pollFrom env name (attempt + k) (fuel - k)).progress := by
  intro k
  induction k with
  | zero => intro attempt fuel _ _; simp
  | succ k ih =>
    intro attempt fuel hk h
    obtain ⟨fuel', rfl⟩ : ∃ f, fuel = f + 1 := ⟨fuel - 1, by omega⟩
    obtain ⟨js, henv, hcl⟩ := h 0 (Nat.succ_pos k)
    rw [Nat.add_zero] at henv
    have h' : ∀ j, j < k → NonTerminalAt env (attempt + 1 + j) := by
      intro j hj
      have := h (j + 1) (by omega)
      rwa [show attempt + (j + 1) = attempt + 1 + j by omega] at this
    rw [pollFrom_succ_nonTerminal env name attempt fuel' js henv hcl]
    show progressMessage name attempt :: (pollFrom env name (attempt + 1) fuel').progress = _
    rw [ih (attempt + 1) fuel' (by omega) h',
      show attempt + 1 + k = attempt + (k + 1) by omega,
      show fuel' - k = fuel' + 1 - (k + 1) by omega]
    have hrange : (List.range (k + 1)).map (fun j => progressMessage name (attempt + j)) =
        progressMessage name attempt ::
          (List.range k).map (fun j => progressMessage name (attempt + 1 + j)) := by
      rw [List.range_succ_eq_map, List.map_cons, List.map_map]
      refine congrArg₂ List.cons ?_ ?_
      · rw [Nat.add_zero]
      · refine List.map_congr_left (fun j _ => ?_)
        simp only [Function.comp_apply]
        exact congrArg (fun t => progressMessage name t) (by omega)
    rw [hrange, List.cons_append]

/-- Skipping a run of `k` non-terminal attempts prepends `k` waits of
`intervalMs` milliseconds. -/
lemma pollFrom_skip_delays (env : Nat → Except String JobStatusResponse) (name : String) :
    ∀ (k attempt fuel : Nat), k ≤ fuel →
      (∀ j, j < k → NonTerminalAt env (attempt + j)) →
      (pollFrom env name attempt fuel).delays =
        List.replicate k intervalMs ++ (pollFrom env name (attempt + k) (fuel - k)).delays := by
  intro k
  induction k with
  | zero => intro attempt fuel _ _; simp
  | succ k ih =>
    intro attempt fuel hk h
    obtain ⟨fuel', rfl⟩ : ∃ f, fuel = f + 1 := ⟨fuel - 1, by omega⟩
    obtain ⟨js, henv, hcl⟩ := h 0 (Nat.succ_pos k)
    rw [Nat.add_zero] at henv
    have h' : ∀ j, j < k → NonTerminalAt env (attempt + 1 + j) := by
      intro j hj
      have := h (j + 1) (by omega)
      rwa [show attempt + (j + 1) = attempt + 1 + j by omega] at this
    rw [pollFrom_succ_nonTerminal env name attempt fuel' js henv hcl]
    show intervalMs :: (pollFrom env name (attempt + 1) fuel').delays = _
    rw [ih (attempt + 1) fuel' (by omega) h',
      show attempt + 1 + k = attempt + (k + 1) by omega,
      show fuel' - k = fuel' + 1 - (k + 1) by omega,
      List.replicate_succ, List.cons_append]

lemma get?_replicate {α : Type} (c : α) : ∀ (n j : Nat), j < n →
    (List.replicate n c).get? j = some c
  | n + 1, 0, _ => rfl
  | n + 1, j + 1, h => get?_replicate c n j (by omega)

/-- A failed/failure status classifies into the failure bucket, with the
precedence-chosen message. -/
lemma classifyStatus_failure (js : JobStatusResponse)
    (hfail : js.status = "failed" ∨ js.status = "failure") :
    classifyStatus js = .failure (failureMessage js) := by
  cases hr : js.result <;> rcases hfail with h | h <;> simp [classifyStatus, hr, h]

/-- A success status without a result payload is non-terminal. -/
lemma classifyStatus_success_noResult (js : JobStatusResponse)
    (hst : js.status = "success") (hres : js.result = none) :
    classifyStatus js = .nonTerminal := by
  simp [classifyStatus, hres, hst]

/-- A success status with a result payload is success-terminal. -/
lemma classifyStatus_success_result (js : JobStatusResponse) (r : JobResult)
    (hst : js.status = "success") (hres : js.result = some r) :
    classifyStatus js = .successResult r := by
  simp [classifyStatus, hres, hst]

/-- `pollForCompletion` after a prefix of `k` non-terminal attempts:
outcome is forwarded and the `k` queries are counted. -/
lemma pollForCompletion_skip (env : Nat → Except String JobStatusResponse)
    (name : String) (k : Nat) (hk : k ≤ 60)
    (hpre : ∀ j, j < k → NonTerminalAt env j) :
    (pollForCompletion env name).outcome = (pollFrom env name k (60 - k)).outcome ∧
    (pollForCompletion env name).queries = (pollFrom env name k (60 - k)).queries + k := by
  have h0 : ∀ j, j < k → NonTerminalAt env (0 + j) := by
    intro j hj; rw [Nat.zero_add]; exact hpre j hj
  have ho := pollFrom_skip_outcome env name k 0 60 hk h0
  have hq := pollFrom_skip_queries env name k 0 60 hk h0
  rw [Nat.zero_add] at ho hq
  exact ⟨ho, hq⟩

/-- `pollForCompletion` progress messages over a prefix of `k`
non-terminal attempts. -/
lemma pollForCompletion_progress_prefix (env : Nat → Except String JobStatusResponse)
    (name : String) (k : Nat) (hk : k ≤ 60)
    (hpre : ∀ j, j < k → NonTerminalAt env j) :
    (pollForCompletion env name).progress =
      (List.range k).map (progressMessage name) ++ (pollFrom env name k (60 - k)).progress := by
  have h0 : ∀ j, j < k → NonTerminalAt env (0 + j) := by
    intro j hj; rw [Nat.zero_add]; exact hpre j hj
  have hp := pollFrom_skip_progress env name k 0 60 hk h0
  rw [Nat.zero_add] at hp
  have hmap : (List.range k).map (fun j => progressMessage name (0 + j)) =
      (List.range k).map (progressMessage name) :=
    List.map_congr_left (fun j _ => congrArg (fun t => progressMessage name t) (Nat.zero_add j))
  rw [hmap] at hp
  exact hp

/-- `pollForCompletion` waits over a prefix of `k` non-terminal attempts. -/
lemma pollForCompletion_delays_prefix (env : Nat → Except String JobStatusResponse)
    (name : String) (k : Nat) (hk : k ≤ 60)
    (hpre : ∀ j, j < k → NonTerminalAt env j) :
    (pollForCompletion env name).delays =
      List.replicate k intervalMs ++ (pollFrom env name k (60 - k)).delays := by
  have h0 : ∀ j, j < k → NonTerminalAt env (0 + j) := by
    intro j hj; rw [Nat.zero_add]; exact hpre j hj
  have hd := pollFrom_skip_delays env name k 0 60 hk h0
  rw [Nat.zero_add] at hd
  exact hd

/-- If every attempt is non-terminal, the poller exhausts all 60 attempts
and reports the fixed timeout message. -/
lemma pollForCompletion_timeout (env : Nat → Except String JobStatusResponse)
    (name : String) (h : ∀ j, j < 60 → NonTerminalAt env j) :
    (pollForCompletion env name).outcome = .errorOut timeoutMessage ∧
    (pollForCompletion env name).queries = 60 ∧
    (pollForCompletion env name).progress = (List.range 60).map (progressMessage name) ∧
    (pollForCompletion env name).delays = List.replicate 60 intervalMs := by
  obtain ⟨ho, hq⟩ := pollForCompletion_skip env name 60 le_rfl h
  have hp := pollForCompletion_progress_prefix env name 60 le_rfl h
  have hd := pollForCompletion_delays_prefix env name 60 le_rfl h
  have hbase : pollFrom env name 60 (60 - 60) =
      { outcome := .errorOut timeoutMessage, queries := 0, progress := [], delays := [] } := rfl
  rw [hbase] at ho hq hp hd
  rw [List.append_nil] at hp hd
  exact ⟨ho, by rw [hq], hp, hd⟩

/-- A constant failed/failure status makes the poller stop on the first
attempt with the precedence-chosen message. -/
lemma pollForCompletion_const_failure (name : String) (js : JobStatusResponse)
    (hfail : js.status = "failed" ∨ js.status = "failure") :
    (pollForCompletion (fun _ => .ok js) name).outcome = .errorOut (failureMessage js) ∧
    (pollForCompletion (fun _ => .ok js) name).queries = 1 := by
  have hcl := classifyStatus_failure js hfail
  obtain ⟨ho, hq⟩ := pollForCompletion_skip (fun _ => .ok js) name 0 (by omega)
    (fun j hj => absurd hj (Nat.not_lt_zero j))
  rw [pollFrom_succ_failure (fun _ => .ok js) name 0 59 js (failureMessage js) rfl hcl] at ho hq
  exact ⟨ho, by rw [hq]⟩

/-- C1: when a poll attempt's status has state `"success"` and a result
payload present (all earlier attempts non-terminal), the poller stops with
exactly `k + 1` status queries and returns the field-mapped Report, whose
`id` is the result's `report_id` and whose normalized name is the
lowercased player name. -/
theorem poll_success_stops (env : Nat → Except String JobStatusResponse)
    (name : String) (k : Nat) (hk : k < 60)
    (hpre : ∀ j, j < k → NonTerminalAt env j)
    (js : JobStatusResponse) (r : JobResult)
    (henv : env k = .ok js) (hst : js.status = "success") (hres : js.result = some r) :
    (pollForCompletion env name).outcome = .reportReady (toScoutingReport r) ∧
    (pollForCompletion env name).queries = k + 1 ∧
    (toScoutingReport r).id = r.report_id ∧
    (toScoutingReport r).player_name_normalized = r.player_name.toLower := by
  have hcl := classifyStatus_success_result js r hst hres
  obtain ⟨ho, hq⟩ := pollForCompletion_skip env name k (le_of_lt hk) hpre
  rw [show 60 - k = (59 - k) + 1 by omega] at ho hq
  rw [pollFrom_succ_success env name k (59 - k) js r henv hcl] at ho hq
  refine ⟨ho, ?_, rfl, rfl⟩
  rw [hq]
  show 1 + k = k + 1
  omega

/-- C1 witness: for the status sequence `pending, pending,
success(result = sampleResult)` the field-mapped Report is returned in
exactly 3 attempts. -/
theorem poll_success_stops_witness :
    (pollForCompletion pendingThenSuccess "Obscure Prospect").outcome =
      .reportReady (toScoutingReport sampleResult) ∧
    (pollForCompletion pendingThenSuccess "Obscure Prospect").queries = 3 ∧
    (toScoutingReport sampleResult).id = sampleResult.report_id ∧
    (toScoutingReport sampleResult).player_name_normalized =
      sampleResult.player_name.toLower :=
  poll_success_stops pendingThenSuccess "Obscure Prospect" 2 (by omega)
    (fun j hj => ⟨pendingStatus, by simp [pendingThenSuccess, hj], rfl⟩)
    successStatus sampleResult (by simp [pendingThenSuccess]) rfl rfl

/-- C2: if all 60 attempts are non-terminal, the poller reports the fixed
timeout message, which is distinct from the failure-terminal fallback
message, and issues exactly 60 status queries (no 61st). -/
theorem poll_timeout_after_60 (env : Nat → Except String JobStatusResponse)
    (name : String) (h : ∀ j, j < 60 → NonTerminalAt env j) :
    (pollForCompletion env name).outcome = .errorOut timeoutMessage ∧
    (pollForCompletion env name).queries = 60 ∧
    timeoutMessage ≠ "Research job failed" := by
  obtain ⟨ho, hq, _, _⟩ := pollForCompletion_timeout env name h
  exact ⟨ho, hq, by decide⟩

/-- C2 witness: a job that always reports `running` times out after
exactly 60 queries. -/
theorem poll_timeout_after_60_witness :
    (pollForCompletion (fun _ => .ok runningStatus) "p").outcome = .errorOut timeoutMessage ∧
    (pollForCompletion (fun _ => .ok runningStatus) "p").queries = 60 ∧
    timeoutMessage ≠ "Research job failed" :=
  poll_timeout_after_60 (fun _ => .ok runningStatus) "p"
    (fun _ _ => ⟨runningStatus, rfl, rfl⟩)

/-- C3: the two failure spellings are NOT handled identically in every
poller.  `pollForCompletion` treats `"failed"` and `"failure"` the same
(stop after one query, report the job's error text), but
`waitForJobCompletion` recognizes only `"failed"` as terminal: fed a
constant `"failure"` status it polls all 60 attempts and throws
`"Job timed out"` instead of returning the failed status. -/
theorem waitFor_failure_spelling_bug :
    pollForCompletion (fun _ => .ok failedSpelledStatus) "p" =
      pollForCompletion (fun _ => .ok failureSpelledStatus) "p" ∧
    (pollForCompletion (fun _ => .ok failureSpelledStatus) "p").outcome =
      .errorOut "boom" ∧
    (pollForCompletion (fun _ => .ok failureSpelledStatus) "p").queries = 1 ∧
    waitForJobCompletion (fun _ => .ok failedSpelledStatus) =
      { result := .ok failedSpelledStatus, queries := 1 } ∧
    waitForJobCompletion (fun _ => .ok failureSpelledStatus) =
      { result := .error "Job timed out", queries := 60 } := by
  refine ⟨rfl, rfl, rfl, rfl, rfl⟩

/-- C4: on a failure-terminal status the reported message prefers
`error_message` (when present and non-empty, as any plain literal like
`"X"` is) over `error`, and falls back to the literal
`"Research job failed"` when neither field is present. -/
theorem failure_error_precedence (name m e : String) (js : JobStatusResponse)
    (hfail : js.status = "failed" ∨ js.status = "failure") :
    (js.error_message = some m → m ≠ "" → js.error = some e →
      (pollForCompletion (fun _ => .ok js) name).outcome = .errorOut m) ∧
    (js.error_message = none → js.error = none →
      (pollForCompletion (fun _ => .ok js) name).outcome =
        .errorOut "Research job failed") := by
  obtain ⟨ho, _⟩ := pollForCompletion_const_failure name js hfail
  constructor
  · intro hm hne _
    rw [ho]
    simp [failureMessage, jsOrElse, hm, hne]
  · intro hm he
    rw [ho]
    simp [failureMessage, jsOrElse, hm, he]

/-- C4 witness: `error_message = "X"`, `error = "Y"` reports `"X"`;
neither field present reports `"Research job failed"`. -/
theorem failure_error_precedence_witness :
    (pollForCompletion (fun _ => .ok jsBothFields) "p").outcome = .errorOut "X" ∧
    (pollForCompletion (fun _ => .ok jsNoFields) "p").outcome =
      .errorOut "Research job failed" :=
  ⟨(failure_error_precedence "p" "X" "Y" jsBothFields (Or.inl rfl)).1 rfl (by decide) rfl,
   (failure_error_precedence "p" "m" "e" jsNoFields (Or.inr rfl)).2 rfl rfl⟩

/-- C5: a transport error on attempt index `k` (all earlier attempts
non-terminal) aborts the whole poll sequence: the underlying message is
reported and exactly `k + 1` queries are issued, regardless of what later
attempts would have returned. -/
theorem poll_transport_aborts (env : Nat → Except String JobStatusResponse)
    (name : String) (k : Nat) (msg : String) (hk : k < 60)
    (hpre : ∀ j, j < k → NonTerminalAt env j)
    (herr : env k = .error msg) :
    (pollForCompletion env name).outcome = .errorOut msg ∧
    (pollForCompletion env name).queries = k + 1 := by
  obtain ⟨ho, hq⟩ := pollForCompletion_skip env name k (le_of_lt hk) hpre
  rw [show 60 - k = (59 - k) + 1 by omega] at ho hq
  rw [pollFrom_succ_transport env name k (59 - k) msg herr] at ho hq
  refine ⟨ho, ?_⟩
  rw [hq]
  show 1 + k = k + 1
  omega

/-- C5 witness: transport error on attempt 5 (index 4) of a job that
would have succeeded on attempt 6: the transport error is reported after
exactly 5 queries, so attempt 6 is never issued. -/
theorem poll_transport_aborts_witness :
    (pollForCompletion transportAt4 "p").outcome =
      .errorOut "Network error: connection reset" ∧
    (pollForCompletion transportAt4 "p").queries = 5 :=
  poll_transport_aborts transportAt4 "p" 4 "Network error: connection reset" (by omega)
    (fun j hj => ⟨runningStatus, by simp [transportAt4, hj], rfl⟩)
    (by simp [transportAt4])

/-- C6: while attempts stay non-terminal, the `j`-th poll attempt emits
exactly the progress message containing the subject label and the elapsed
seconds `j * 2000 / 1000`, and then waits the fixed 2000 ms before the
next attempt. -/
theorem poll_progress_messages (env : Nat → Except String JobStatusResponse)
    (name : String) (k : Nat) (hk : k < 60)
    (hpre : ∀ j, j ≤ k → NonTerminalAt env j) :
    ∀ j, j ≤ k →
      (pollForCompletion env name).progress.get? j =
        some ("Researching " ++ name ++ "... (" ++ toString (j * 2000 / 1000) ++ "s)") ∧
      (pollForCompletion env name).delays.get? j = some 2000 := by
  intro j hj
  have hpre' : ∀ i, i < k + 1 → NonTerminalAt env i := fun i hi => hpre i (by omega)
  have hpp := pollForCompletion_progress_prefix env name (k + 1) (by omega) hpre'
  have hdd := pollForCompletion_delays_prefix env name (k + 1) (by omega) hpre'
  constructor
  · rw [hpp, List.get?_append (by simp only [List.length_map, List.length_range]; omega),
      List.get?_map, List.get?_range (by omega)]
    rfl
  · rw [hdd, List.get?_append (by simp only [List.length_replicate]; omega),
      get?_replicate intervalMs (k + 1) j (by omega)]
    rfl

/-- C6 witness: with every status `running`, attempt index 3 emits
`Researching p... (6s)` and then waits 2000 ms. -/
theorem poll_progress_messages_witness :
    (pollForCompletion (fun _ => .ok runningStatus) "p").progress.get? 3 =
      some "Researching p... (6s)" ∧
    (pollForCompletion (fun _ => .ok runningStatus) "p").delays.get? 3 = some 2000 :=
  poll_progress_messages (fun _ => .ok runningStatus) "p" 5 (by omega)
    (fun _ _ => ⟨runningStatus, rfl, rfl⟩) 3 (by omega)

/-- C7 counterexample: the scout-page caller (`handleSearch`) has no
branch for an ambiguous response, so on the Will Smith ambiguous response
it performs no status query but also does NOT surface the candidates as
an error — it falls through doing nothing. -/
theorem handleSearch_ambiguous_not_surfaced :
    handleSearch (fun _ => .error "no network") "Will Smith" willSmithAmbiguous =
      .ignored ∧
    (handleSearch (fun _ => .error "no network") "Will Smith"
      willSmithAmbiguous).isAmbiguousError = false ∧
    (handleSearch (fun _ => .error "no network") "Will Smith"
      willSmithAmbiguous).statusQueries = 0 :=
  ⟨rfl, rfl, rfl⟩

/-- C7 (amended): neither caller ever polls on a Complete or Ambiguous
response — the poll loop is invoked exactly on Pending.  The player-page
caller surfaces the candidates as an error without any status query; the
scout-page caller silently ignores an Ambiguous response (no status query,
but no candidates error either). -/
theorem research_response_dispatch (env : Nat → Except String JobStatusResponse)
    (name : String) (cached : Bool) (r : ScoutingReport)
    (cands : List PlayerSummary) (m jid pmsg : String) :
    (handleGenerateReport env name (.complete cached r)).statusQueries = 0 ∧
    (handleSearch env name (.complete cached r)).statusQueries = 0 ∧
    (handleGenerateReport env name (.ambiguous cands m)).statusQueries = 0 ∧
    (handleSearch env name (.ambiguous cands m)).statusQueries = 0 ∧
    handleGenerateReport env name (.ambiguous cands m) =
      .ambiguousError (ambiguousErrorText name cands) ∧
    handleSearch env name (.ambiguous cands m) = .ignored ∧
    handleGenerateReport env name (.pending jid pmsg) =
      .polled (pollForCompletion env name) ∧
    handleSearch env name (.pending jid pmsg) =
      .polled (pollForCompletion env name) :=
  ⟨rfl, rfl, rfl, rfl, rfl, rfl, rfl, rfl⟩

/-- C8: a status with state `"success"` but no result payload is
classified non-terminal, so a job that only ever reports success without
a result polls all 60 attempts, emits 60 progress updates, and ends in
the timeout error rather than a report or failure error. -/
theorem success_without_result_nonterminal (name : String) (js : JobStatusResponse)
    (hst : js.status = "success") (hres : js.result = none) :
    classifyStatus js = .nonTerminal ∧
    (pollForCompletion (fun _ => .ok js) name).outcome = .errorOut timeoutMessage ∧
    (pollForCompletion (fun _ => .ok js) name).queries = 60 ∧
    (pollForCompletion (fun _ => .ok js) name).progress.length = 60 := by
  have hcl := classifyStatus_success_noResult js hst hres
  have h : ∀ j, j < 60 → NonTerminalAt (fun _ => .ok js) j := fun _ _ => ⟨js, rfl, hcl⟩
  obtain ⟨ho, hq, hp, _⟩ := pollForCompletion_timeout (fun _ => .ok js) name h
  refine ⟨hcl, ho, hq, ?_⟩
  rw [hp]
  simp

/-- C8 witness: the concrete status `{ status := "success" }` with no
result payload. -/
theorem success_without_result_nonterminal_witness :
    classifyStatus successNoResult = .nonTerminal ∧
    (pollForCompletion (fun _ => .ok successNoResult) "p").outcome =
      .errorOut timeoutMessage ∧
    (pollForCompletion (fun _ => .ok successNoResult) "p").queries = 60 ∧
    (pollForCompletion (fun _ => .ok successNoResult) "p").progress.length = 60 :=
  success_without_result_nonterminal "p" successNoResult rfl rfl

/-- C9: when `error_message` is present but empty, the reported failure
message is the `error` field when that is non-empty, and the fixed
fallback when `error` is empty or absent: precedence is decided by
non-emptiness, not mere presence. -/
theorem empty_error_message_fallback (name e : String) (js : JobStatusResponse)
    (hfail : js.status = "failed" ∨ js.status = "failure")
    (hm : js.error_message = some "") :
    (js.error = some e → e ≠ "" →
      (pollForCompletion (fun _ => .ok js) name).outcome = .errorOut e) ∧
    (js.error = none ∨ js.error = some "" →
      (pollForCompletion (fun _ => .ok js) name).outcome =
        .errorOut "Research job failed") := by
  obtain ⟨ho, _⟩ := pollForCompletion_const_failure name js hfail
  constructor
  · intro he hne
    rw [ho]
    simp [failureMessage, jsOrElse, hm, he, hne]
  · intro he
    rw [ho]
    rcases he with he | he <;> simp [failureMessage, jsOrElse, hm, he]

/-- C9 witness: `error_message = ""` with `error = "DB down"` reports
`"DB down"`; both fields empty reports `"Research job failed"`. -/
theorem empty_error_message_fallback_witness :
    (pollForCompletion (fun _ => .ok jsEmptyMsgField) "p").outcome =
      .errorOut "DB down" ∧
    (pollForCompletion (fun _ => .ok jsBothEmpty) "p").outcome =
      .errorOut "Research job failed" :=
  ⟨(empty_error_message_fallback "p" "DB down" jsEmptyMsgField (Or.inl rfl) rfl).1
      rfl (by decide),
   (empty_error_message_fallback "p" "e" jsBothEmpty (Or.inr rfl) rfl).2 (Or.inr rfl)⟩

/-- C10: `researchPlayer` converts an `ApiError` with HTTP status 300
whose payload has status `"ambiguous"` into a normal Ambiguous response;
every other submission error propagates unchanged, and a normal response
passes through. -/
theorem researchPlayer_ambiguous_recovery (e : ApiError) (d : AmbiguousData) :
    (e.status = 300 → e.data = some d → d.status = "ambiguous" →
      researchPlayer (.error e) = .ok (.ambiguous d.candidates d.message)) ∧
    ((e.status ≠ 300 ∨ e.data = none ∨ ∀ d2, e.data = some d2 → d2.status ≠ "ambiguous") →
      researchPlayer (.error e) = .error e) ∧
    (∀ r, researchPlayer (.ok r) = .ok r) := by
  refine ⟨?_, ?_, fun r => rfl⟩
  · intro h300 hdata hamb
    simp [researchPlayer, hdata, h300, hamb]
  · intro h
    cases hd : e.data with
    | none => simp [researchPlayer, hd]
    | some d2 =>
      rcases h with h | h | h
      · simp [researchPlayer, hd, h]
      · rw [hd] at h; cases h
      · simp [researchPlayer, hd, h d2 hd]

/-- C10 witness: a 300 error carrying the Will Smith ambiguous payload is
returned as a normal Ambiguous response; a plain 404 error propagates. -/
theorem researchPlayer_ambiguous_recovery_witness :
    researchPlayer (.error ambiguous300) =
      .ok (.ambiguous [willSmithA, willSmithB] "Multiple players match") ∧
    researchPlayer (.error notFound404) = .error notFound404 :=
  ⟨(researchPlayer_ambiguous_recovery ambiguous300 willSmithData).1 rfl rfl rfl,
   (researchPlayer_ambiguous_recovery notFound404 willSmithData).2.1
     (Or.inl (by decide))⟩
